import Mathlib

/-!
Shallow embedding of the admin session & account-security subsystem of the
MerciLuxe backend (src/models/AdminModel.js, src/middleware/authMiddleware.js,
src/Services/SecurityService.js, src/controllers/AdminController.js,
src/utils/DeviceUtils.js).

Timestamps are modelled as `Int` milliseconds since the epoch (JS `Date`
values compare as numbers).  Persistence (`findById` / `findOne`) is modelled
by passing the looked-up document as an `Option Admin` (or a list standing for
the store).  bcrypt is modelled by an abstract `HashOracle`.  Mongoose
`save()` runs the registered pre-save hooks; the only hooks in the source are
the password-history hook and the login-history trim, modelled explicitly.
-/

/-- One millisecond-denominated minute, as in the JS sources. -/
def MIN_MS : Int := 60 * 1000

/-- One hour in milliseconds. -/
def HOUR_MS : Int := 60 * 60 * 1000

/-- One day in milliseconds (the `24 * 60 * 60 * 1000` of the sources). -/
def DAY_MS : Int := 24 * 60 * 60 * 1000

/-- Shape of `deviceInfo` as produced by `extractDeviceInfo` (AdminController.js):
all fields are strings; absent values are the empty string. -/
structure DeviceInfo where
  ip : String
  userAgent : String
  browser : String
  os : String
  deviceType : String
  location : String
deriving DecidableEq, Repr

/-- One entry of `activeSessions` (AdminModel.js schema). -/
structure Session where
  sessionId : String
  deviceInfo : DeviceInfo
  loginTime : Int
  lastActivity : Int
  isActive : Bool
  expiresAt : Int
deriving DecidableEq, Repr

/-- One entry of `loginHistory` (AdminModel.js schema).  `browser`/`os` are
written by `logSuccessfulLogin` even though the schema does not declare them;
we keep them as plain strings with `""` for absent (JS falsy). -/
structure LoginRecord where
  ip : String
  userAgent : String
  location : String
  browser : String
  os : String
  success : Bool
  loginTime : Int
  failureReason : String
deriving DecidableEq, Repr

/-- One entry of `passwordHistory`. -/
structure PasswordEntry where
  password : String
  changedAt : Int
deriving DecidableEq, Repr

/-- The `role` enum. -/
inductive Role where
  | principal
  | admin
deriving DecidableEq, Repr

/-- The `status` enum. -/
inductive Status where
  | pending
  | approved
  | rejected
  | suspended
deriving DecidableEq, Repr

/-- The `status` rendered as in the schema, for interpolated messages. -/
def Status.toText : Status → String
  | .pending => "pending"
  | .approved => "approved"
  | .rejected => "rejected"
  | .suspended => "suspended"

/-- The `emailNotifications` toggles. -/
structure EmailNotifications where
  newLogin : Bool
  newRegistration : Bool
  securityAlerts : Bool
  suspiciousActivity : Bool
deriving DecidableEq, Repr

/-- The admin document (AdminModel.js), restricted to the fields the
security core reads or writes. -/
structure Admin where
  name : String
  email : String
  password : String
  role : Role
  status : Status
  activeSessions : List Session
  failedLoginAttempts : Nat
  lockoutUntil : Option Int
  lastLogin : Option Int
  lastLogout : Option Int
  lastPasswordChange : Int
  passwordHistory : List PasswordEntry
  resetPasswordToken : Option String
  resetPasswordExpires : Option Int
  resetPasswordAttempts : Nat
  emailNotifications : EmailNotifications
  loginHistory : List LoginRecord
  isDeleted : Bool
deriving DecidableEq, Repr

/-- Abstract bcrypt: `genHash` is `bcrypt.hash` (salt fixed by the model),
`verify c h` is `bcrypt.compare(c, h)`. -/
structure HashOracle where
  genHash : String → String
  verify : String → String → Bool

/-- JS `arr.slice(-n)` for `n > 0`: the last `n` elements (all of them when
the list is shorter). -/
def lastN (n : Nat) (l : List α) : List α := l.drop (l.length - n)

/-- Number of distinct elements, i.e. `new Set(arr).size`. -/
def countDistinct (l : List String) : Nat := l.dedup.length

/-- Number of sessions with `isActive == true`
(`activeSessions.filter(s => s.isActive).length`). -/
def countActive (l : List Session) : Nat := (l.filter (·.isActive)).length

/-- Virtual `isLocked`: `lockoutUntil && lockoutUntil > Date.now()`. -/
def isLocked (a : Admin) (now : Int) : Bool :=
  match a.lockoutUntil with
  | none => false
  | some t => now < t

/-- Per-session part of `cleanExpiredSessions` (AdminModel.js 334-342):
deactivate when `expiresAt < now` or `lastActivity < now - 24h`. -/
def cleanOne (now : Int) (s : Session) : Session :=
  if s.expiresAt < now ∨ s.lastActivity < now - DAY_MS then
    { s with isActive := false }
  else s

/-- Method `cleanExpiredSessions()` (AdminModel.js 334-342). -/
def cleanExpiredSessions (a : Admin) (now : Int) : Admin :=
  { a with activeSessions := a.activeSessions.map (cleanOne now) }

/-- The JS `reduce((oldest, session) => session.loginTime < oldest.loginTime
? session : oldest)` over a nonempty list: accumulator starts at the head. -/
def oldestSession : Session → List Session → Session
  | acc, [] => acc
  | acc, s :: rest =>
      oldestSession (if s.loginTime < acc.loginTime then s else acc) rest

/-- JS object mutation `oldestSession.isActive = false`: the mutated object is
a member of `activeSessions`, so the list sees the first (identical) entry
deactivated. -/
def deactivateFirst : List Session → Session → List Session
  | [], _ => []
  | s :: rest, target =>
      if s = target then { s with isActive := false } :: rest
      else s :: deactivateFirst rest target

/-- The session pushed by `addSession`: active, `expiresAt = now + 24h`. -/
def freshSession (sid : String) (d : DeviceInfo) (now : Int) : Session :=
  { sessionId := sid
    deviceInfo := d
    loginTime := now
    lastActivity := now
    isActive := true
    expiresAt := now + DAY_MS }

/-- Method `addSession(deviceInfo)` (AdminModel.js 243-269).  The random
`generateSessionId()` output is passed in as `sid`. -/
def addSession (a : Admin) (sid : String) (d : DeviceInfo) (now : Int) : Admin :=
  let a1 := cleanExpiredSessions a now
  let act := a1.activeSessions.filter (·.isActive)
  let sessions :=
    match act with
    | [] => a1.activeSessions
    | hd :: tl =>
        if 5 ≤ act.length then
          deactivateFirst a1.activeSessions (oldestSession hd tl)
        else a1.activeSessions
  { a1 with activeSessions := sessions ++ [freshSession sid d now] }

/-- Helper for `updateSessionActivity`: JS `find` returns the first matching entry and
its `lastActivity` is mutated in place. -/
def updateFirstActivity : List Session → String → Int → List Session
  | [], _, _ => []
  | s :: rest, sid, now =>
      if s.sessionId = sid ∧ s.isActive then { s with lastActivity := now } :: rest
      else s :: updateFirstActivity rest sid now

/-- Method `updateSessionActivity(sessionId)` (AdminModel.js 272-277). -/
def updateSessionActivity (a : Admin) (sid : String) (now : Int) : Admin :=
  { a with activeSessions := updateFirstActivity a.activeSessions sid now }

/-- Helper for `removeSession(sessionId)`: deactivate the first entry with this id
(regardless of `isActive`). -/
def deactivateFirstWithId : List Session → String → List Session
  | [], _ => []
  | s :: rest, sid =>
      if s.sessionId = sid then { s with isActive := false } :: rest
      else s :: deactivateFirstWithId rest sid

/-- Method `removeSession(sessionId)` (AdminModel.js 280-285). -/
def removeSession (a : Admin) (sid : String) : Admin :=
  { a with activeSessions := deactivateFirstWithId a.activeSessions sid }

/-- Method `removeAllSessions()` (AdminModel.js 288-292). -/
def removeAllSessions (a : Admin) : Admin :=
  { a with activeSessions := a.activeSessions.map (fun s => { s with isActive := false }) }

/-- Method `removeAllOtherSessions(currentSessionId)` (AdminModel.js 295-301). -/
def removeAllOtherSessions (a : Admin) (currentSid : String) : Admin :=
  { a with activeSessions := a.activeSessions.map (fun s =>
      if s.sessionId ≠ currentSid then { s with isActive := false } else s) }

/-- Method `resetFailedLogins()` (AdminModel.js 328-331). -/
def resetFailedLogins (a : Admin) : Admin :=
  { a with failedLoginAttempts := 0, lockoutUntil := none }

/-- The login-history pre-save hook (AdminModel.js 211-217): keep only the
last 50 entries. -/
def trimLoginHistory (l : List LoginRecord) : List LoginRecord :=
  if 50 < l.length then lastN 50 l else l

/-- Mongoose `save()` restricted to documents whose `password` path is unmodified:
only the login-history trim hook fires. -/
def saveNoPasswordChange (a : Admin) : Admin :=
  { a with loginHistory := trimLoginHistory a.loginHistory }

/-- The failed `LoginRecord` pushed by `handleFailedLogin`. -/
def failedRecord (d : DeviceInfo) (now : Int) : LoginRecord :=
  { ip := d.ip
    userAgent := d.userAgent
    location := d.location
    browser := ""
    os := ""
    success := false
    loginTime := now
    failureReason := "Invalid credentials" }

/-- The successful `LoginRecord` pushed by `logSuccessfulLogin`. -/
def successRecord (d : DeviceInfo) (now : Int) : LoginRecord :=
  { ip := d.ip
    userAgent := d.userAgent
    location := d.location
    browser := d.browser
    os := d.os
    success := true
    loginTime := now
    failureReason := "" }

/-- Method `handleFailedLogin(deviceInfo)` (AdminModel.js 304-325), including the
`save()` it performs (password unmodified, so only the history trim fires). -/
def handleFailedLogin (a : Admin) (d : DeviceInfo) (now : Int) : Admin :=
  let attempts := a.failedLoginAttempts + 1
  let hist := a.loginHistory ++ [failedRecord d now]
  let lock : Option Int :=
    if 5 ≤ attempts then some (now + 30 * MIN_MS)
    else if 3 ≤ attempts then some (now + 5 * MIN_MS)
    else a.lockoutUntil
  saveNoPasswordChange
    { a with failedLoginAttempts := attempts, loginHistory := hist, lockoutUntil := lock }

/-- Method `logSuccessfulLogin(deviceInfo)` (AdminModel.js 344-355); does not save. -/
def logSuccessfulLogin (a : Admin) (d : DeviceInfo) (now : Int) : Admin :=
  { a with loginHistory := a.loginHistory ++ [successRecord d now] }

/-- JS `email.toLowerCase().trim()`, implemented over the character list so
that concrete instances evaluate inside the kernel. -/
def normalizeEmail (email : String) : String :=
  String.mk ((((email.data.map Char.toLower).dropWhile
    Char.isWhitespace).reverse.dropWhile Char.isWhitespace).reverse)

/-- Method `isPasswordReused(newPassword)` (AdminModel.js 229-235): the loop with an
early `return true` is `List.any`. -/
def isPasswordReused (H : HashOracle) (a : Admin) (candidate : String) : Bool :=
  a.passwordHistory.any (fun e => H.verify candidate e.password)

/-- Mongoose `save()` on a document whose `password` path was modified and which is not
new (AdminModel.js 185-209 then 211-217): the hook pushes the *current*
(already reassigned, still plaintext) `this.password` into `passwordHistory`,
caps the history at 5, hashes the password, stamps `lastPasswordChange`, and
then the login-history trim hook fires. -/
def savePasswordModified (H : HashOracle) (a : Admin) (now : Int) : Admin :=
  let hist :=
    if a.password ≠ "" then
      let pushed := a.passwordHistory ++ [{ password := a.password, changedAt := now }]
      if 5 < pushed.length then pushed.drop (pushed.length - 5) else pushed
    else a.passwordHistory
  { a with
      passwordHistory := hist
      password := H.genHash a.password
      lastPasswordChange := now
      loginHistory := trimLoginHistory a.loginHistory }

/-- The decoded JWT payload as `authenticateUser` reads it:
`userId` stands for `decoded._id || decoded.id`. -/
structure DecodedToken where
  userId : Option String
  sessionId : Option String
deriving DecidableEq, Repr

/-- Outcome of `authenticateUser` (authMiddleware.js 158-214).  `failure`
carries the account state persisted by `user.save()` during the failed
validation, when any. -/
inductive AuthOutcome where
  | failure (message : String) (saved : Option Admin)
  | success (user : Admin) (sessionId : Option String)
deriving DecidableEq, Repr

/-- Whether the outcome is acceptance. -/
def AuthOutcome.isSuccess : AuthOutcome → Bool
  | .success _ _ => true
  | .failure _ _ => false

/-- Deactivate the first entry matching `sessionId == sid && isActive` — the
object mutated on the expired-session path of `authenticateUser`. -/
def deactivateFirstActiveWithId : List Session → String → List Session
  | [], _ => []
  | s :: rest, sid =>
      if s.sessionId = sid ∧ s.isActive then { s with isActive := false } :: rest
      else s :: deactivateFirstActiveWithId rest sid

/-- JS `Math.ceil(x / 60000)` for the positive remaining lockout time. -/
def ceilMinutes (x : Int) : Int := (x + (MIN_MS - 1)) / MIN_MS

/-- Middleware `authenticateUser(decoded, req)` (authMiddleware.js 158-214).  The
`AdminUser.findById` result is passed in as `lookup`. -/
def authenticateUser (lookup : Option Admin) (decoded : DecodedToken) (now : Int) : AuthOutcome :=
  match decoded.userId with
  | none => .failure "Invalid token payload" none
  | some _ =>
      match lookup with
      | none => .failure "User not found" none
      | some user =>
          if user.isDeleted then .failure "Account has been deleted" none
          else if user.status ≠ .approved then
            .failure ("Account " ++ user.status.toText) none
          else if isLocked user now then
            .failure ("Account locked. Try again in " ++
              toString (ceilMinutes (user.lockoutUntil.getD 0 - now)) ++ " minutes") none
          else
            match decoded.sessionId with
            | none => .success user none
            | some sid =>
                match user.activeSessions.find? (fun s => s.sessionId = sid ∧ s.isActive) with
                | none => .failure "Session expired or invalid" none
                | some s =>
                    if s.expiresAt < now then
                      .failure "Session expired"
                        (some (saveNoPasswordChange
                          { user with activeSessions :=
                              deactivateFirstActiveWithId user.activeSessions sid }))
                    else
                      .success
                        (saveNoPasswordChange (updateSessionActivity user sid now))
                        (some sid)

/-- Function `detectSuspiciousActivity(admin, deviceInfo)` (DeviceUtils.js 62-92).
`hour` is `new Date().getHours()`; the `deviceInfo` argument is unused in the
source as well. -/
def detectSuspiciousActivity (admin : Admin) (now : Int) (hour : Nat) : List String :=
  let t1 :=
    if 3 ≤ admin.failedLoginAttempts then ["Multiple recent failed login attempts"] else []
  let recentSessions := admin.activeSessions.filter
    (fun s => s.isActive ∧ now - 2 * HOUR_MS < s.loginTime)
  let locations := countDistinct
    ((recentSessions.map (fun s => s.deviceInfo.location)).filter (· ≠ ""))
  let t2 := if 2 < locations then ["Login from multiple locations in short time"] else []
  let t3 := if hour < 6 ∨ 23 < hour then ["Login at unusual hours"] else []
  t1 ++ t2 ++ t3

/-- Function `isHighRiskIP(ip)` (DeviceUtils.js 95-109): every branch returns `false`
in the source. -/
def isHighRiskIP (ip : String) : Bool :=
  if ip = "" then false
  else if ip = "127.0.0.1" ∨ ip = "::1" ∨
      List.isPrefixOf "192.168.".data ip.data ∨ List.isPrefixOf "10.".data ip.data then false
  else false

/-- The heuristic-6 working list (SecurityService.js 69-76): the last 5 history
records that are successful, location-known and within the last 24 hours.
`loginHistory` is appended newest-last, so index 0 of this list is the
*oldest* qualifying record. -/
def recentKnownLogins (a : Admin) (now : Int) : List LoginRecord :=
  (lastN 5 a.loginHistory).filter (fun l =>
    l.success ∧ l.location ≠ "" ∧ l.location ≠ "Unknown" ∧ now - DAY_MS < l.loginTime)

/-- The finding string of heuristic 6. -/
def rapidLocationChangeMsg : String :=
  "Rapid location change detected (possible account compromise)"

/-- Method `SecurityService.analyzeLoginAttempt(admin, deviceInfo)`
(SecurityService.js 12-98), returning the list of threat strings.  The alert
email dispatch (step 7) is a detached side effect and not part of the value.
`hour` is the wall-clock hour used by `detectSuspiciousActivity`. -/
def analyzeLoginAttempt (admin : Admin) (deviceInfo : DeviceInfo) (now : Int) (hour : Nat) :
    List String :=
  let suspiciousFlags := detectSuspiciousActivity admin now hour
  let t2 :=
    if isHighRiskIP deviceInfo.ip then
      ["Login from high-risk location: " ++
        (if deviceInfo.location = "" then "Unknown" else deviceInfo.location)]
    else []
  let recentFailedFromIP := (lastN 20 admin.loginHistory).filter (fun l =>
    ¬l.success ∧ l.ip = deviceInfo.ip ∧ now - HOUR_MS < l.loginTime)
  let t3 :=
    if 3 ≤ recentFailedFromIP.length then
      [toString recentFailedFromIP.length ++ " failed login attempts from this IP in the last hour"]
    else []
  let actSessions := admin.activeSessions.filter (·.isActive)
  let uniqueLocations := countDistinct
    ((actSessions.map (fun s => s.deviceInfo.location)).filter
      (fun loc => loc ≠ "" ∧ loc ≠ "Unknown" ∧ loc ≠ "Local"))
  let t4 :=
    if 3 ≤ uniqueLocations then
      ["Concurrent active sessions from " ++ toString uniqueLocations ++ " different locations"]
    else []
  let recentDevices := ((lastN 10 admin.loginHistory).filter
    (fun l => l.success ∧ l.browser ≠ "")).map (fun l => l.browser ++ "-" ++ l.os)
  let currentDevice := deviceInfo.browser ++ "-" ++ deviceInfo.os
  let t5 :=
    if 3 ≤ recentDevices.length ∧ ¬(currentDevice ∈ recentDevices) then
      ["Login from new or unusual device"]
    else []
  let t6 :=
    match recentKnownLogins admin now with
    | lastLogin :: _ :: _ =>
        if lastLogin.location ≠ deviceInfo.location ∧ now - lastLogin.loginTime < HOUR_MS then
          [rapidLocationChangeMsg]
        else []
    | _ => []
  suspiciousFlags ++ t2 ++ t3 ++ t4 ++ t5 ++ t6

/-- The HTTP reply as the controllers shape it. -/
structure HttpResponse where
  status : Nat
  success : Bool
  message : String
deriving DecidableEq, Repr

/-- Result shape of `validatePasswordStrength` (AdminController.js 37-47). -/
structure PasswordCheck where
  isValid : Bool
  errors : List String
deriving DecidableEq, Repr

/-- The `/[!@#$%^&*]/` character class. -/
def isSpecialChar (c : Char) : Bool :=
  c ∈ ['!', '@', '#', '$', '%', '^', '&', '*']

/-- Function `validatePasswordStrength(password)` (AdminController.js 37-47). -/
def validatePasswordStrength (password : String) : PasswordCheck :=
  let e1 := if password.length < 8 then ["Password must be at least 8 characters"] else []
  let e2 :=
    if ¬password.data.any Char.isUpper then ["Password must contain uppercase letter"] else []
  let e3 :=
    if ¬password.data.any Char.isLower then ["Password must contain lowercase letter"] else []
  let e4 := if ¬password.data.any Char.isDigit then ["Password must contain number"] else []
  let e5 :=
    if ¬password.data.any isSpecialChar then ["Password must contain special character"] else []
  let errors := e1 ++ e2 ++ e3 ++ e4 ++ e5
  { isValid := errors.isEmpty, errors := errors }

/-- The approved-account lookup (`findOne` by email, approved status, not deleted) of
`requestPasswordReset`, over a list standing for the store. -/
def findApprovedByEmail (store : List Admin) (email : String) : Option Admin :=
  store.find? (fun a => a.email = normalizeEmail email ∧ a.status = .approved ∧ ¬a.isDeleted)

/-- Controller `requestPasswordReset` (AdminController.js 586-650).  The random
6-digit `crypto.randomInt` output is passed in as `resetCode`; the email
dispatch is a detached side effect.  Returns the HTTP reply and the saved
account state, when one was saved. -/
def requestPasswordReset (store : List Admin) (email resetCode : String) (now : Int) :
    HttpResponse × Option Admin :=
  if email = "" then ({ status := 400, success := false, message := "Email is required" }, none)
  else
    match findApprovedByEmail store email with
    | none =>
        ({ status := 200, success := true,
           message := "If account exists, reset code has been sent" }, none)
    | some admin =>
        if 3 ≤ admin.resetPasswordAttempts then
          ({ status := 429, success := false,
             message := "Too many reset attempts. Please try again later." }, some admin)
        else
          let admin := { admin with
            resetPasswordToken := some resetCode
            resetPasswordExpires := some (now + 15 * MIN_MS)
            resetPasswordAttempts := admin.resetPasswordAttempts + 1 }
          ({ status := 200, success := true, message := "Reset code sent to your email" },
           some (saveNoPasswordChange admin))

/-- The `findOne({email, resetPasswordToken, resetPasswordExpires: {$gt: now},
isDeleted:false})` of `resetPassword` and `verifyResetCode`. -/
def findResetCandidate (store : List Admin) (email code : String) (now : Int) : Option Admin :=
  store.find? (fun a =>
    (a.email == normalizeEmail email) &&
    (a.resetPasswordToken == some code) &&
    (match a.resetPasswordExpires with
     | some e => decide (now < e)
     | none => false) &&
    !a.isDeleted)

/-- Controller `resetPassword` (AdminController.js 696-764).  Returns the HTTP reply and
the saved account state on success. -/
def resetPassword (H : HashOracle) (store : List Admin)
    (email code newPassword : String) (now : Int) : HttpResponse × Option Admin :=
  if email = "" ∨ code = "" ∨ newPassword = "" then
    ({ status := 400, success := false,
       message := "Email, code and new password are required" }, none)
  else if ¬(validatePasswordStrength newPassword).isValid then
    ({ status := 400, success := false, message := "Password does not meet requirements" }, none)
  else
    match findResetCandidate store email code now with
    | none =>
        ({ status := 400, success := false, message := "Invalid or expired reset code" }, none)
    | some admin =>
        if isPasswordReused H admin newPassword then
          ({ status := 400, success := false, message := "Cannot reuse previous passwords" }, none)
        else
          let admin := { admin with
            password := newPassword
            resetPasswordToken := none
            resetPasswordExpires := none
            resetPasswordAttempts := 0 }
          let admin := removeAllSessions admin
          let admin := savePasswordModified H admin now
          ({ status := 200, success := true,
             message := "Password reset successfully. Please login." }, some admin)

/-- The account lookup (`findOne` by email, not deleted, selecting the password) of
`loginAdmin`. -/
def findLoginCandidate (store : List Admin) (email : String) : Option Admin :=
  store.find? (fun a => a.email = normalizeEmail email ∧ ¬a.isDeleted)

/-- Controller `loginAdmin` (AdminController.js 142-267).  `newSid` stands for the random
session id, `hour` for the wall-clock hour read by the threat analyzer.
Returns the HTTP reply and the saved account state, when one was saved. -/
def loginAdmin (H : HashOracle) (store : List Admin) (email password : String)
    (d : DeviceInfo) (newSid : String) (now : Int) (hour : Nat) :
    HttpResponse × Option Admin :=
  if email = "" ∨ password = "" then
    ({ status := 400, success := false, message := "Email and password are required" }, none)
  else
    match findLoginCandidate store email with
    | none =>
        ({ status := 401, success := false, message := "Invalid email or password" }, none)
    | some admin =>
        if isLocked admin now then
          ({ status := 423, success := false,
             message := "Account locked. Try again in " ++
               toString (ceilMinutes ((admin.lockoutUntil.getD 0) - now)) ++ " minutes." },
           some admin)
        else if ¬ H.verify password admin.password then
          ({ status := 401, success := false, message := "Invalid email or password" },
           some (handleFailedLogin admin d now))
        else if admin.status ≠ .approved then
          ({ status := 403, success := false,
             message := "Account " ++ admin.status.toText ++ ". Contact principal admin." },
           some admin)
        else
          let _threats := analyzeLoginAttempt admin d now hour
          let admin := resetFailedLogins admin
          let admin := cleanExpiredSessions admin now
          let admin := addSession admin newSid d now
          let admin := logSuccessfulLogin admin d now
          let admin := { admin with lastLogin := some now }
          let admin := saveNoPasswordChange admin
          ({ status := 200, success := true, message := "Login successful" }, some admin)

/-- Controller `toggleAdminStatus` (AdminController.js 959-1012).  The
`findOne({_id, isDeleted:false})` result is passed in as `lookup`. -/
def toggleAdminStatus (lookup : Option Admin) : HttpResponse × Option Admin :=
  match lookup with
  | none => ({ status := 404, success := false, message := "Admin not found" }, none)
  | some admin =>
      if admin.role = .principal then
        ({ status := 403, success := false, message := "Cannot modify principal admin status" },
         some admin)
      else
        let newStatus := if admin.status = .approved then Status.suspended else Status.approved
        let admin := { admin with status := newStatus }
        let admin := if newStatus = .suspended then removeAllSessions admin else admin
        let admin := saveNoPasswordChange admin
        ({ status := 200, success := true,
           message := "Admin " ++
             (if newStatus = .approved then "activated" else "suspended") ++ " successfully" },
         some admin)

/-! ### Concrete example values (shared by witnesses and counterexamples) -/

/-- A concrete bcrypt model: a hash is the plaintext tagged with a bcrypt
version marker, and `compare` succeeds exactly on the hash of the candidate
(so it fails on any stored value that is not a hash). -/
def Hc : HashOracle :=
  { genHash := fun p => "$2b$" ++ p
    verify := fun c h => h == "$2b$" ++ c }

/-- A concrete device fingerprint. -/
def dEx : DeviceInfo :=
  { ip := "1.2.3.4", userAgent := "ua", browser := "Chrome", os := "Windows"
    deviceType := "Desktop", location := "Kumasi" }

/-- All notification toggles on (the schema defaults). -/
def notifEx : EmailNotifications :=
  { newLogin := true, newRegistration := true, securityAlerts := true
    suspiciousActivity := true }

/-- A minimal approved admin account. -/
def baseAdmin : Admin :=
  { name := "A", email := "a@x.com", password := "$2b$A", role := .admin, status := .approved
    activeSessions := [], failedLoginAttempts := 0, lockoutUntil := none
    lastLogin := none, lastLogout := none, lastPasswordChange := 0
    passwordHistory := [], resetPasswordToken := none, resetPasswordExpires := none
    resetPasswordAttempts := 0, emailNotifications := notifEx, loginHistory := []
    isDeleted := false }

/-- An active, far-from-expiry session. -/
def sessEx (sid : String) (t : Int) : Session :=
  { sessionId := sid, deviceInfo := dEx, loginTime := t, lastActivity := 1000000000000
    isActive := true, expiresAt := 2000000000000 }

/-- An account with one active session expiring exactly at time 5. -/
def uC1 : Admin :=
  { baseAdmin with activeSessions := [{ sessEx "t1" 0 with expiresAt := 5 }] }

/-- An account with one active, far-from-expiry session `w1`. -/
def uC1w : Admin := { baseAdmin with activeSessions := [sessEx "w1" 0] }

/-- An account with two prior failed attempts. -/
def aC2 : Admin := { baseAdmin with failedLoginAttempts := 2 }

/-- Five active sessions, the oldest by `loginTime` being `s2`. -/
def a5ex : Admin :=
  { baseAdmin with activeSessions :=
      [sessEx "s1" 30, sessEx "s2" 10, sessEx "s3" 50, sessEx "s4" 20, sessEx "s5" 40] }

/-- Account whose stored password is the hash of `Aa1!aaaa`. -/
def aC5start : Admin := { baseAdmin with password := Hc.genHash "Aa1!aaaa" }

/-- State of `aC5start` after the change-password mutation to `Bb2@bbbb` (assignment of
the new plaintext followed by `save()`). -/
def aC5afterChange : Admin :=
  savePasswordModified Hc { aC5start with password := "Bb2@bbbb" } 10

/-- State `aC5afterChange` holding a fresh, unexpired reset code. -/
def aC5ready : Admin :=
  { aC5afterChange with resetPasswordToken := some "654321", resetPasswordExpires := some 10000 }

/-- An account holding a valid reset code, one active and one inactive session. -/
def aResetC6 : Admin :=
  { baseAdmin with
      resetPasswordToken := some "123456"
      resetPasswordExpires := some 10000
      activeSessions := [sessEx "r1" 0, { sessEx "r2" 1 with isActive := false }] }

/-- The account state `resetPassword` saves for `aResetC6`. -/
def savedC6 : Admin :=
  ((resetPassword Hc [aResetC6] "a@x.com" "123456" "Abcdef1!" 500).2).getD baseAdmin

/-- An account with three prior reset requests. -/
def aLimit : Admin := { baseAdmin with resetPasswordAttempts := 3 }

/-- A rejected, non-principal account. -/
def aRej : Admin := { baseAdmin with status := Status.rejected }

/-- A successful location-known login from Accra, 30 minutes before time
`100000000000`. -/
def recAccra : LoginRecord :=
  { ip := "9.9.9.9", userAgent := "ua", location := "Accra", browser := "", os := ""
    success := true, loginTime := 100000000000 - 30 * MIN_MS, failureReason := "" }

/-- A successful location-known login from Kumasi, 10 minutes before time
`100000000000`. -/
def recKumasi : LoginRecord :=
  { recAccra with location := "Kumasi", loginTime := 100000000000 - 10 * MIN_MS }

/-- History: Accra login, then (most recently) a Kumasi login. -/
def aC8 : Admin := { baseAdmin with loginHistory := [recAccra, recKumasi] }

/-- History: a single successful Accra login 20 minutes ago. -/
def aC8single : Admin :=
  { baseAdmin with loginHistory := [{ recAccra with loginTime := 100000000000 - 20 * MIN_MS }] }

/-- A concrete login-history list longer than 50 entries: 60 failed records
with distinct timestamps. -/
def histC10 : List LoginRecord :=
  (List.range 60).map (fun i => { failedRecord dEx (Int.ofNat i) with ip := toString i })

/-! ### Helper lemmas on session lists -/

theorem countActive_append (l1 l2 : List Session) :
    countActive (l1 ++ l2) = countActive l1 + countActive l2 := by
  simp [countActive, List.filter_append]

theorem countActive_cons (s : Session) (l : List Session) :
    countActive (s :: l) = (if s.isActive then 1 else 0) + countActive l := by
  by_cases h : s.isActive <;> simp [countActive, List.filter_cons, h, Nat.add_comm]

theorem countActive_le_cons (s : Session) (l : List Session) :
    countActive l ≤ countActive (s :: l) := by
  rw [countActive_cons]; omega

theorem countActive_map_cleanOne (now : Int) (l : List Session) :
    countActive (l.map (cleanOne now)) ≤ countActive l := by
  induction l with
  | nil => simp [countActive]
  | cons s rest ih =>
      rw [List.map_cons, countActive_cons, countActive_cons]
      have hle : (if (cleanOne now s).isActive then 1 else 0) ≤
          (if s.isActive then (1 : Nat) else 0) := by
        by_cases hc : s.expiresAt < now ∨ s.lastActivity < now - DAY_MS
        · simp [cleanOne, hc]
        · simp [cleanOne, hc]
      exact Nat.add_le_add hle ih

theorem oldestSession_mem (acc : Session) (l : List Session) :
    oldestSession acc l ∈ acc :: l := by
  induction l generalizing acc with
  | nil => simp [oldestSession]
  | cons s rest ih =>
      rw [oldestSession]
      rcases List.mem_cons.mp (ih (if s.loginTime < acc.loginTime then s else acc)) with h | h
      · rw [h]
        split <;> simp
      · simp [h]

theorem oldestSession_min (acc : Session) (l : List Session) :
    ∀ x ∈ acc :: l, (oldestSession acc l).loginTime ≤ x.loginTime := by
  induction l generalizing acc with
  | nil =>
      intro x hx
      rw [List.mem_singleton.mp hx]
      simp [oldestSession]
  | cons s rest ih =>
      intro x hx
      rw [oldestSession]
      set acc' := if s.loginTime < acc.loginTime then s else acc with hacc'
      have hmin : (oldestSession acc' rest).loginTime ≤ acc'.loginTime :=
        ih acc' acc' (List.mem_cons_self _ _)
      have hbound : acc'.loginTime ≤ acc.loginTime ∧ acc'.loginTime ≤ s.loginTime := by
        rw [hacc']
        by_cases hlt : s.loginTime < acc.loginTime
        · rw [if_pos hlt]; exact ⟨le_of_lt hlt, le_refl _⟩
        · rw [if_neg hlt]; exact ⟨le_refl _, le_of_not_lt hlt⟩
      rcases List.mem_cons.mp hx with rfl | hx'
      · exact le_trans hmin hbound.1
      rcases List.mem_cons.mp hx' with rfl | hx''
      · exact le_trans hmin hbound.2
      · exact ih acc' x (List.mem_cons_of_mem _ hx'')

theorem deactivateFirst_decomp {l : List Session} {t : Session} (h : t ∈ l) :
    ∃ l1 l2, l = l1 ++ t :: l2 ∧
      deactivateFirst l t = l1 ++ ({ t with isActive := false }) :: l2 := by
  induction l with
  | nil => cases h
  | cons s rest ih =>
      by_cases hs : s = t
      · subst hs
        exact ⟨[], rest, rfl, by simp [deactivateFirst]⟩
      · rcases List.mem_cons.mp h with h' | h'
        · exact absurd h'.symm hs
        · rcases ih h' with ⟨l1, l2, hl, hd⟩
          exact ⟨s :: l1, l2, by simp [hl], by simp [deactivateFirst, hs, hd]⟩

theorem countActive_deactivateFirst {l : List Session} {t : Session}
    (hmem : t ∈ l) (hact : t.isActive = true) :
    countActive (deactivateFirst l t) + 1 = countActive l := by
  rcases deactivateFirst_decomp hmem with ⟨l1, l2, hl, hd⟩
  rw [hd, hl, countActive_append, countActive_append, countActive_cons, countActive_cons]
  simp [hact]
  omega

theorem map_eq_self_of {l : List α} {f : α → α} (h : ∀ x ∈ l, f x = x) : l.map f = l := by
  induction l with
  | nil => rfl
  | cons x xs ih =>
      rw [List.map_cons, h x (List.mem_cons_self _ _),
        ih (fun y hy => h y (List.mem_cons_of_mem _ hy))]

theorem session_eta (s : Session) (h : s.isActive = false) :
    ({ s with isActive := false } : Session) = s := by
  cases s
  simp_all

theorem cleanExpiredSessions_id (a : Admin) (now : Int)
    (h : ∀ s ∈ a.activeSessions, s.isActive = true →
      ¬(s.expiresAt < now) ∧ ¬(s.lastActivity < now - DAY_MS)) :
    cleanExpiredSessions a now = a := by
  unfold cleanExpiredSessions
  rw [map_eq_self_of]
  intro s hs
  by_cases hc : s.expiresAt < now ∨ s.lastActivity < now - DAY_MS
  · have hin : s.isActive = false := by
      by_contra hcon
      have := h s hs (eq_true_of_ne_false (by simpa using hcon))
      tauto
    rw [cleanOne, if_pos hc]
    exact session_eta s hin
  · rw [cleanOne, if_neg hc]

theorem countActive_eq_filter_length (l : List Session) :
    countActive l = (l.filter (·.isActive)).length := rfl

/-- C3: `addSession` keeps the number of active sessions at or below 5
whenever it was at or below 5 before the call. -/
theorem addSession_countActive_le (a : Admin) (sid : String) (d : DeviceInfo) (now : Int)
    (h : countActive a.activeSessions ≤ 5) :
    countActive (addSession a sid d now).activeSessions ≤ 5 := by
  have hclean : countActive ((cleanExpiredSessions a now).activeSessions) ≤
      countActive a.activeSessions := countActive_map_cleanOne now a.activeSessions
  simp only [addSession]
  cases hact : (cleanExpiredSessions a now).activeSessions.filter (·.isActive) with
  | nil =>
      have h0 : countActive (cleanExpiredSessions a now).activeSessions = 0 := by
        rw [countActive_eq_filter_length, hact]
        rfl
      rw [countActive_append, h0]
      simp [countActive, freshSession]
  | cons hd tl =>
      dsimp only
      by_cases h5 : 5 ≤ (hd :: tl).length
      · rw [if_pos h5]
        have hcnt : countActive (cleanExpiredSessions a now).activeSessions = (hd :: tl).length := by
          rw [countActive_eq_filter_length, hact]
        have hmemf : oldestSession hd tl ∈
            (cleanExpiredSessions a now).activeSessions.filter (·.isActive) := by
          rw [hact]; exact oldestSession_mem hd tl
        have hmem := (List.mem_filter.mp hmemf).1
        have hactv : (oldestSession hd tl).isActive = true := by
          simpa using (List.mem_filter.mp hmemf).2
        have hdec := countActive_deactivateFirst hmem hactv
        rw [countActive_append]
        have hfresh : countActive [freshSession sid d now] = 1 := by
          simp [countActive, freshSession]
        rw [hfresh]
        omega
      · rw [if_neg h5]
        have hcnt : countActive (cleanExpiredSessions a now).activeSessions = (hd :: tl).length := by
          rw [countActive_eq_filter_length, hact]
        rw [countActive_append]
        have hfresh : countActive [freshSession sid d now] = 1 := by
          simp [countActive, freshSession]
        rw [hfresh]
        simp only [List.length_cons] at h5 hcnt
        omega

/-- C4: with exactly 5 active sessions, none expired or stale, `addSession`
deactivates precisely one prior session — an active one of minimal
`loginTime` — appends the new active session with `expiresAt = now + 24h`,
and keeps the active count at 5. -/
theorem addSession_evicts_oldest (a : Admin) (sid : String) (d : DeviceInfo) (now : Int)
    (h5 : countActive a.activeSessions = 5)
    (hfr : ∀ s ∈ a.activeSessions, s.isActive = true →
      ¬(s.expiresAt < now) ∧ ¬(s.lastActivity < now - DAY_MS)) :
    ∃ old l1 l2,
      a.activeSessions = l1 ++ old :: l2 ∧
      old.isActive = true ∧
      (∀ s ∈ a.activeSessions, s.isActive = true → old.loginTime ≤ s.loginTime) ∧
      (addSession a sid d now).activeSessions =
        l1 ++ ({ old with isActive := false }) :: (l2 ++ [freshSession sid d now]) ∧
      (freshSession sid d now).isActive = true ∧
      (freshSession sid d now).expiresAt = now + DAY_MS ∧
      countActive (addSession a sid d now).activeSessions = 5 := by
  have hcl : cleanExpiredSessions a now = a := cleanExpiredSessions_id a now hfr
  cases hact : a.activeSessions.filter (·.isActive) with
  | nil =>
      exfalso
      rw [countActive_eq_filter_length, hact] at h5
      simp at h5
  | cons hd tl =>
      have hlen : (hd :: tl).length = 5 := by
        rw [countActive_eq_filter_length, hact] at h5
        exact h5
      have hmemf : oldestSession hd tl ∈ a.activeSessions.filter (·.isActive) := by
        rw [hact]; exact oldestSession_mem hd tl
      have hmem := (List.mem_filter.mp hmemf).1
      have hactv : (oldestSession hd tl).isActive = true := by
        simpa using (List.mem_filter.mp hmemf).2
      rcases deactivateFirst_decomp hmem with ⟨l1, l2, hdec, hde⟩
      refine ⟨oldestSession hd tl, l1, l2, hdec, hactv, ?_, ?_, rfl, rfl, ?_⟩
      · intro s hs hsa
        have hsf : s ∈ a.activeSessions.filter (·.isActive) :=
          List.mem_filter.mpr ⟨hs, by simp [hsa]⟩
        rw [hact] at hsf
        exact oldestSession_min hd tl s hsf
      · simp only [addSession, hcl, hact]
        rw [if_pos (by omega : 5 ≤ (hd :: tl).length), hde]
        simp
      · have hdc := countActive_deactivateFirst hmem hactv
        simp only [addSession, hcl, hact]
        rw [if_pos (by omega : 5 ≤ (hd :: tl).length), countActive_append]
        have hfresh : countActive [freshSession sid d now] = 1 := by
          simp [countActive, freshSession]
        rw [hfresh]
        rw [countActive_eq_filter_length a.activeSessions, hact] at hdc
        rw [countActive_eq_filter_length] at hdc ⊢
        omega

theorem trimLoginHistory_append_last (l : List LoginRecord) (r : LoginRecord) :
    ∃ pre, trimLoginHistory (l ++ [r]) = pre ++ [r] := by
  unfold trimLoginHistory
  by_cases h : 50 < (l ++ [r]).length
  · rw [if_pos h]
    unfold lastN
    have hk : (l ++ [r]).length - 50 ≤ l.length := by
      simp only [List.length_append, List.length_singleton] at h ⊢
      omega
    exact ⟨l.drop ((l ++ [r]).length - 50), List.drop_append_of_le_length hk⟩
  · rw [if_neg h]
    exact ⟨l, rfl⟩

theorem lastN_trimLoginHistory (l : List LoginRecord) (n : Nat) (hn : n ≤ 50) :
    lastN n (trimLoginHistory l) = lastN n l := by
  unfold trimLoginHistory
  by_cases h : 50 < l.length
  · rw [if_pos h]
    unfold lastN
    rw [List.length_drop, List.drop_drop]
    congr 1
    omega
  · rw [if_neg h]

theorem trimLoginHistory_suffix (l : List LoginRecord) : trimLoginHistory l <:+ l := by
  unfold trimLoginHistory
  by_cases h : 50 < l.length
  · rw [if_pos h]
    exact List.drop_suffix _ _
  · rw [if_neg h]

theorem updateFirstActivity_spec (l : List Session) (sid : String) (now : Int)
    (h : ∃ s ∈ l, s.sessionId = sid ∧ s.isActive = true) :
    ∃ s' ∈ updateFirstActivity l sid now,
      s'.sessionId = sid ∧ s'.isActive = true ∧ s'.lastActivity = now := by
  induction l with
  | nil =>
      rcases h with ⟨s, hs, _⟩
      cases hs
  | cons s rest ih =>
      by_cases hp : s.sessionId = sid ∧ s.isActive
      · refine ⟨{ s with lastActivity := now }, ?_, hp.1, hp.2, rfl⟩
        rw [updateFirstActivity, if_pos hp]
        exact List.mem_cons_self _ _
      · rcases h with ⟨t, ht, hts, hta⟩
        rcases List.mem_cons.mp ht with rfl | ht'
        · exact absurd ⟨hts, hta⟩ hp
        · rcases ih ⟨t, ht', hts, hta⟩ with ⟨s', hm, h1, h2, h3⟩
          refine ⟨s', ?_, h1, h2, h3⟩
          rw [updateFirstActivity, if_neg hp]
          exact List.mem_cons_of_mem _ hm

/-- C1 (amended): for an existing, non-deleted, approved, non-locked account
and a token embedding a session id, `authenticateUser` accepts iff the
sessions list of the account holds a session with this id that is active and
satisfies `expiresAt ≥ now` (the source rejects only `expiresAt < now`, so a
session expiring exactly at validation time is still accepted); on acceptance
the `lastActivity` of the matching session is set to the current time. -/
theorem authenticateUser_session_iff (u : Admin) (uid sid : String) (now : Int)
    (hdel : u.isDeleted = false)
    (happ : u.status = Status.approved)
    (hlock : isLocked u now = false)
    (hids : (u.activeSessions.map (·.sessionId)).Nodup) :
    ((authenticateUser (some u) ⟨some uid, some sid⟩ now).isSuccess = true ↔
      ∃ s ∈ u.activeSessions, s.sessionId = sid ∧ s.isActive = true ∧ now ≤ s.expiresAt) ∧
    (∀ u' osid, authenticateUser (some u) ⟨some uid, some sid⟩ now = .success u' osid →
      osid = some sid ∧
      ∃ s' ∈ u'.activeSessions,
        s'.sessionId = sid ∧ s'.isActive = true ∧ s'.lastActivity = now) := by
  simp only [authenticateUser, hdel, happ, hlock, Bool.false_eq_true, if_false,
    ne_eq, not_true_eq_false, reduceIte]
  cases hfind : u.activeSessions.find? (fun s => s.sessionId = sid ∧ s.isActive) with
  | none =>
      have hnone := List.find?_eq_none.mp hfind
      constructor
      · dsimp only [AuthOutcome.isSuccess]
        simp only [Bool.false_eq_true, false_iff]
        rintro ⟨s, hs, h1, h2, _⟩
        have := hnone s hs
        simp [h1, h2] at this
      · intro u' osid heq
        exact absurd heq (by simp)
  | some s =>
      have hp := List.find?_some hfind
      simp only [decide_eq_true_eq] at hp
      have hmem := List.mem_of_find?_eq_some hfind
      by_cases hexp : s.expiresAt < now
      · constructor
        · dsimp only
          rw [if_pos hexp]
          dsimp only [AuthOutcome.isSuccess]
          simp only [Bool.false_eq_true, false_iff]
          rintro ⟨t, htmem, hts, hta, hte⟩
          have hst : s = t := by
            apply List.inj_on_of_nodup_map hids hmem htmem
            rw [hp.1, hts]
          rw [← hst] at hte
          omega
        · intro u' osid heq
          dsimp only at heq
          rw [if_pos hexp] at heq
          exact AuthOutcome.noConfusion heq
      · constructor
        · dsimp only
          rw [if_neg hexp]
          constructor
          · intro _
            exact ⟨s, hmem, hp.1, hp.2, le_of_not_lt hexp⟩
          · intro _
            rfl
        · intro u' osid heq
          dsimp only at heq
          rw [if_neg hexp] at heq
          injection heq with hu hos
          subst hu
          subst hos
          refine ⟨rfl, ?_⟩
          have hsessions :
              (saveNoPasswordChange (updateSessionActivity u sid now)).activeSessions =
              updateFirstActivity u.activeSessions sid now := rfl
          rw [hsessions]
          exact updateFirstActivity_spec u.activeSessions sid now ⟨s, hmem, hp.1, hp.2⟩

/-- C2: a password-mismatch login increments `failedLoginAttempts` and appends
a failed `LoginRecord`; after the increment, a counter of exactly 2 leaves
`lockoutUntil` untouched, a counter of 3 (or 4) sets it to `now + 5min`, and a
counter of 5 (or more) sets it to `now + 30min`. -/
theorem handleFailedLogin_spec (a : Admin) (d : DeviceInfo) (now : Int) :
    (handleFailedLogin a d now).failedLoginAttempts = a.failedLoginAttempts + 1 ∧
    (∃ pre, (handleFailedLogin a d now).loginHistory = pre ++ [failedRecord d now]) ∧
    ((handleFailedLogin a d now).failedLoginAttempts = 2 →
      (handleFailedLogin a d now).lockoutUntil = a.lockoutUntil) ∧
    ((handleFailedLogin a d now).failedLoginAttempts = 3 →
      (handleFailedLogin a d now).lockoutUntil = some (now + 5 * MIN_MS)) ∧
    ((handleFailedLogin a d now).failedLoginAttempts = 5 →
      (handleFailedLogin a d now).lockoutUntil = some (now + 30 * MIN_MS)) := by
  refine ⟨rfl, ?_, ?_, ?_, ?_⟩
  · simp only [handleFailedLogin, saveNoPasswordChange]
    exact trimLoginHistory_append_last _ _
  · intro h
    have h2 : a.failedLoginAttempts + 1 = 2 := h
    simp only [handleFailedLogin, saveNoPasswordChange]
    rw [if_neg (by omega), if_neg (by omega)]
  · intro h
    have h3 : a.failedLoginAttempts + 1 = 3 := h
    simp only [handleFailedLogin, saveNoPasswordChange]
    rw [if_neg (by omega), if_pos (by omega)]
  · intro h
    have h5 : a.failedLoginAttempts + 1 = 5 := h
    simp only [handleFailedLogin, saveNoPasswordChange]
    rw [if_pos (by omega)]

/-- C6: whenever `resetPassword` saves an account (which happens exactly on
the success path), the saved account has every session deactivated and the
reset token, expiry and attempt counter cleared. -/
theorem resetPassword_spec (H : HashOracle) (store : List Admin)
    (email code newPassword : String) (now : Int) (a' : Admin)
    (h : (resetPassword H store email code newPassword now).2 = some a') :
    (∀ s ∈ a'.activeSessions, s.isActive = false) ∧
    a'.resetPasswordToken = none ∧
    a'.resetPasswordExpires = none ∧
    a'.resetPasswordAttempts = 0 := by
  unfold resetPassword at h
  split at h
  · simp at h
  · split at h
    · simp at h
    · split at h
      · simp at h
      · split at h
        · simp at h
        · simp only at h
          injection h with h'
          subst h'
          refine ⟨?_, rfl, rfl, rfl⟩
          intro s hs
          simp only [savePasswordModified, removeAllSessions] at hs
          rcases List.mem_map.mp hs with ⟨t, _, rfl⟩
          rfl

/-- C7 (amended): the reset-request endpoint replies 200/success both when no
approved account matches the email and when one matches with fewer than 3
prior reset attempts, but the two success messages are different strings, and
a matching account with 3 or more attempts gets a 429 failure — so the
caller-visible reply does distinguish the cases. -/
theorem requestPasswordReset_characterization (store : List Admin)
    (email resetCode : String) (now : Int) (he : ¬email = "") :
    (findApprovedByEmail store email = none →
      (requestPasswordReset store email resetCode now).1 =
        { status := 200, success := true,
          message := "If account exists, reset code has been sent" }) ∧
    (∀ a, findApprovedByEmail store email = some a →
      a.resetPasswordAttempts < 3 →
      (requestPasswordReset store email resetCode now).1 =
        { status := 200, success := true, message := "Reset code sent to your email" }) ∧
    (∀ a, findApprovedByEmail store email = some a →
      3 ≤ a.resetPasswordAttempts →
      (requestPasswordReset store email resetCode now).1 =
        { status := 429, success := false,
          message := "Too many reset attempts. Please try again later." }) := by
  refine ⟨?_, ?_, ?_⟩
  · intro hnone
    simp [requestPasswordReset, he, hnone]
  · intro a hsome hlt
    simp [requestPasswordReset, he, hsome, Nat.not_le.mpr hlt]
  · intro a hsome hge
    simp [requestPasswordReset, he, hsome, hge]

/-- C9 (amended): for a non-principal account the status toggle sets
`suspended` (revoking every session) when the status is `approved`, and sets
`approved` (sessions untouched) from every other status — including
`rejected`, which therefore does not stay `rejected` under the toggle. -/
theorem toggleAdminStatus_spec (a : Admin) (hp : ¬a.role = Role.principal) :
    ∃ a', (toggleAdminStatus (some a)).2 = some a' ∧
      (a.status = Status.approved →
        a'.status = Status.suspended ∧ ∀ s ∈ a'.activeSessions, s.isActive = false) ∧
      (¬a.status = Status.approved →
        a'.status = Status.approved ∧ a'.activeSessions = a.activeSessions) := by
  by_cases hs : a.status = Status.approved
  · refine ⟨saveNoPasswordChange (removeAllSessions { a with status := Status.suspended }),
      ?_, ?_, ?_⟩
    · simp [toggleAdminStatus, hp, hs]
    · intro _
      constructor
      · rfl
      · intro s hmem
        simp only [saveNoPasswordChange, removeAllSessions] at hmem
        rcases List.mem_map.mp hmem with ⟨t, _, rfl⟩
        rfl
    · intro hcon
      exact absurd hs hcon
  · refine ⟨saveNoPasswordChange { a with status := Status.approved }, ?_, ?_, ?_⟩
    · simp [toggleAdminStatus, hp, hs]
    · intro hcon
      exact absurd hcon hs
    · intro _
      exact ⟨rfl, rfl⟩

/-- C10: login records are appended at the end of `loginHistory` (newest
last); the save-time trim keeps the most recent 50 as a suffix; and for any
`n ≤ 50` the last-`n` slice of the trimmed history equals the last-`n` slice
of the untrimmed history, so the `slice(-n)` of the analyzer reads the `n` most
recent records. -/
theorem loginHistory_order_spec (a : Admin) (d : DeviceInfo) (now : Int)
    (l : List LoginRecord) (n : Nat) (hn : n ≤ 50) :
    (logSuccessfulLogin a d now).loginHistory = a.loginHistory ++ [successRecord d now] ∧
    (∃ pre, (handleFailedLogin a d now).loginHistory = pre ++ [failedRecord d now]) ∧
    trimLoginHistory l <:+ l ∧
    (50 < l.length → (trimLoginHistory l).length = 50) ∧
    (l.length ≤ 50 → trimLoginHistory l = l) ∧
    lastN n (trimLoginHistory l) = lastN n l := by
  refine ⟨rfl, ?_, trimLoginHistory_suffix l, ?_, ?_, lastN_trimLoginHistory l n hn⟩
  · simp only [handleFailedLogin, saveNoPasswordChange]
    exact trimLoginHistory_append_last _ _
  · intro hl
    rw [trimLoginHistory, if_pos hl, lastN, List.length_drop]
    omega
  · intro hl
    rw [trimLoginHistory, if_neg (by omega)]

/-- C1 (counterexample): with every account gate satisfied, a token whose
session expires exactly at validation time (`expiresAt = now = 5`) is
accepted, although `expiresAt` of the session is not in the future — refuting
the claimed "accepts iff ... `expiresAt` in the future". -/
theorem authenticateUser_boundary_counterexample :
    uC1.isDeleted = false ∧ uC1.status = Status.approved ∧ isLocked uC1 5 = false ∧
    (∀ s ∈ uC1.activeSessions, s.sessionId = "t1" ∧ s.isActive = true ∧ ¬(5 < s.expiresAt)) ∧
    (authenticateUser (some uC1) ⟨some "u1", some "t1"⟩ 5).isSuccess = true := by
  decide

/-- C1 (witness): the amended theorem applied to a concrete account. -/
theorem authenticateUser_session_iff_witness :
    uC1w.isDeleted = false ∧ uC1w.status = Status.approved ∧ isLocked uC1w 3 = false ∧
    (uC1w.activeSessions.map (·.sessionId)).Nodup ∧
    (((authenticateUser (some uC1w) ⟨some "u1", some "w1"⟩ 3).isSuccess = true ↔
        ∃ s ∈ uC1w.activeSessions,
          s.sessionId = "w1" ∧ s.isActive = true ∧ (3 : Int) ≤ s.expiresAt) ∧
      (∀ u' osid, authenticateUser (some uC1w) ⟨some "u1", some "w1"⟩ 3 = .success u' osid →
        osid = some "w1" ∧
        ∃ s' ∈ u'.activeSessions,
          s'.sessionId = "w1" ∧ s'.isActive = true ∧ s'.lastActivity = 3)) :=
  ⟨by decide, by decide, by decide, by decide,
    authenticateUser_session_iff uC1w "u1" "w1" 3 (by decide) (by decide) (by decide) (by decide)⟩

/-- C2 (witness): on the third failure the lockout is set five minutes out. -/
theorem handleFailedLogin_spec_witness :
    (handleFailedLogin aC2 dEx 1000).lockoutUntil = some (1000 + 5 * MIN_MS) :=
  (handleFailedLogin_spec aC2 dEx 1000).2.2.2.1 (by decide)

/-- C3 (witness): the bound applied to an account with five active sessions. -/
theorem addSession_countActive_le_witness :
    countActive (addSession a5ex "s6" dEx 1000000000000).activeSessions ≤ 5 :=
  addSession_countActive_le a5ex "s6" dEx 1000000000000 (by decide)

/-- C4 (witness): the eviction theorem applied to an account with exactly five
active, unexpired, non-stale sessions. -/
theorem addSession_evicts_oldest_witness :
    ∃ old l1 l2,
      a5ex.activeSessions = l1 ++ old :: l2 ∧
      old.isActive = true ∧
      (∀ s ∈ a5ex.activeSessions, s.isActive = true → old.loginTime ≤ s.loginTime) ∧
      (addSession a5ex "s6" dEx 1000000000000).activeSessions =
        l1 ++ ({ old with isActive := false }) ::
          (l2 ++ [freshSession "s6" dEx 1000000000000]) ∧
      (freshSession "s6" dEx 1000000000000).isActive = true ∧
      (freshSession "s6" dEx 1000000000000).expiresAt = 1000000000000 + DAY_MS ∧
      countActive (addSession a5ex "s6" dEx 1000000000000).activeSessions = 5 :=
  addSession_evicts_oldest a5ex "s6" dEx 1000000000000 (by decide) (by decide)

/-- C5 (code bug): after the password changes from `Aa1!aaaa` to `Bb2@bbbb`,
the history holds the new plaintext `Bb2@bbbb` rather than the previous hash
(`$2b$Aa1!aaaa`), so resetting back to the previous password `Aa1!aaaa` passes
the reuse check and succeeds, although bcrypt itself verifies correctly. -/
theorem passwordHistory_code_bug :
    aC5afterChange.passwordHistory.map (·.password) = ["Bb2@bbbb"] ∧
    aC5start.password = "$2b$Aa1!aaaa" ∧
    Hc.verify "Aa1!aaaa" (Hc.genHash "Aa1!aaaa") = true ∧
    isPasswordReused Hc aC5ready "Aa1!aaaa" = false ∧
    (resetPassword Hc [aC5ready] "a@x.com" "654321" "Aa1!aaaa" 500).1.success = true := by
  decide

/-- C6 (witness): the reset post-condition theorem applied to a concrete
successful reset. -/
theorem resetPassword_spec_witness :
    (resetPassword Hc [aResetC6] "a@x.com" "123456" "Abcdef1!" 500).2 = some savedC6 ∧
    ((∀ s ∈ savedC6.activeSessions, s.isActive = false) ∧
      savedC6.resetPasswordToken = none ∧
      savedC6.resetPasswordExpires = none ∧
      savedC6.resetPasswordAttempts = 0) :=
  ⟨by decide,
    resetPassword_spec Hc [aResetC6] "a@x.com" "123456" "Abcdef1!" 500 savedC6 (by decide)⟩

/-- C7 (counterexample): for the same well-formed email, the run on a store
containing the account and the run on the empty store both report success but
return different replies (the messages differ), and an account with three
prior reset attempts receives a failure — the caller-visible outcome depends
on account existence. -/
theorem requestPasswordReset_leaks_existence :
    (requestPasswordReset [baseAdmin] "a@x.com" "123456" 0).1.success = true ∧
    (requestPasswordReset [] "a@x.com" "123456" 0).1.success = true ∧
    (requestPasswordReset [baseAdmin] "a@x.com" "123456" 0).1 ≠
      (requestPasswordReset [] "a@x.com" "123456" 0).1 ∧
    (requestPasswordReset [aLimit] "a@x.com" "123456" 0).1.success = false := by
  decide

/-- C7 (witness): the amended characterization applied to the empty store. -/
theorem requestPasswordReset_characterization_witness :
    (requestPasswordReset [] "a@x.com" "123456" 0).1 =
      { status := 200, success := true,
        message := "If account exists, reset code has been sent" } :=
  (requestPasswordReset_characterization [] "a@x.com" "123456" 0 (by decide)).1 (by decide)

/-- C8 (code bug): the history holds an Accra login and then, most recently,
a Kumasi login; the current login is again from Kumasi.  The most recent prior
qualifying login has the same location as the current one, yet the analyzer
reports the impossible-travel finding because it compares against the first
(oldest) record of the `slice(-5)` window; and, with a single prior Accra
login 20 minutes old, the current Kumasi login yields no finding although the
most recent prior location differs with only 20 minutes elapsed. -/
theorem analyzeLoginAttempt_code_bug :
    (recentKnownLogins aC8 100000000000).getLast?.map (·.location) = some dEx.location ∧
    (recentKnownLogins aC8 100000000000).head?.map (·.location) = some "Accra" ∧
    analyzeLoginAttempt aC8 dEx 100000000000 12 = [rapidLocationChangeMsg] ∧
    (recentKnownLogins aC8single 100000000000).getLast?.map (·.location) = some "Accra" ∧
    analyzeLoginAttempt aC8single dEx 100000000000 12 = [] := by
  decide

/-- C9 (counterexample): the toggle on a rejected, non-principal account sets
its status to `approved` — not a transition between `approved` and
`suspended` — after which a login with the correct password succeeds. -/
theorem toggleAdminStatus_rejected_counterexample :
    aRej.status = Status.rejected ∧ ¬aRej.role = Role.principal ∧
    ((toggleAdminStatus (some aRej)).2.map (·.status)) = some Status.approved ∧
    (loginAdmin Hc [((toggleAdminStatus (some aRej)).2.getD baseAdmin)]
        "a@x.com" "A" dEx "sid9" 1000 12).1.success = true := by
  decide

/-- C9 (witness): the amended toggle theorem applied to the rejected account. -/
theorem toggleAdminStatus_spec_witness :
    ∃ a', (toggleAdminStatus (some aRej)).2 = some a' ∧
      (aRej.status = Status.approved →
        a'.status = Status.suspended ∧ ∀ s ∈ a'.activeSessions, s.isActive = false) ∧
      (¬aRej.status = Status.approved →
        a'.status = Status.approved ∧ a'.activeSessions = aRej.activeSessions) :=
  toggleAdminStatus_spec aRej (by decide)

/-- C10 (witness): the ordering theorem applied to a 60-entry history and the
5-record slice of the analyzer. -/
theorem loginHistory_order_spec_witness :
    (logSuccessfulLogin baseAdmin dEx 7).loginHistory =
      baseAdmin.loginHistory ++ [successRecord dEx 7] ∧
    lastN 5 (trimLoginHistory histC10) = lastN 5 histC10 :=
  ⟨(loginHistory_order_spec baseAdmin dEx 7 histC10 5 (by decide)).1,
    (loginHistory_order_spec baseAdmin dEx 7 histC10 5 (by decide)).2.2.2.2.2⟩
